import Mathlib

/-!
Verification of the SecConNet proof-of-concept federated data processing
platform.  The definitions below are a shallow embedding of the Python
sources: `proof_of_concept/definitions/identifier.py`,
`proof_of_concept/components/asset_store.py`,
`proof_of_concept/components/step_runner.py`,
`proof_of_concept/registry.py` and
`proof_of_concept/definitions/registry.py`.

External collaborators that are not part of the source tree (the policy
evaluation engine in `policy/evaluation.py`, the workflow module, the REST
clients and the replication store) are represented by opaque function
parameters, as the specification treats them as external interfaces.
-/

namespace DDM

/-- The Python exception kinds raised by the embedded code. -/
inductive PyError where
  | keyError
  | valueError
  | runtimeError
deriving DecidableEq, Repr

/-- Identifiers are strings (the Python `Identifier` class subclasses `str`). -/
abbrev Identifier := String

/-- `Identifier._kinds` from `definitions/identifier.py`. -/
def kinds : List String :=
  ["party", "party_collection", "site", "asset", "asset_collection", "result"]

/-- `Identifier._lengths` from `definitions/identifier.py`.  The default 0 is
unreachable: the lookup only happens after the kind check passed. -/
def lengths : String → Nat
  | "party" => 3
  | "party_collection" => 3
  | "site" => 3
  | "asset" => 5
  | "asset_collection" => 3
  | "result" => 2
  | _ => 0

/-- Python `str.split(sep)` for a one-character separator, on character
lists: split at every occurrence of the separator, keeping empty segments. -/
def splitOnChar (sep : Char) : List Char → List (List Char)
  | [] => [[]]
  | c :: rest =>
    if c = sep then [] :: splitOnChar sep rest
    else
      match splitOnChar sep rest with
      | [] => [[c]]
      | g :: gs => (c :: g) :: gs

/-- Python `str.split(sep)` for a one-character separator. -/
def pySplit (sep : Char) (s : String) : List String :=
  (splitOnChar sep s.toList).map (fun cs => String.mk cs)

/-- Python `c in s` for a single character. -/
def containsChar (s : String) (c : Char) : Bool :=
  s.toList.contains c

/-- The character class `[a-zA-Z0-9_.-]` of `Identifier._part_regex`. -/
def part_char (c : Char) : Bool :=
  (('a' ≤ c && c ≤ 'z') || ('A' ≤ c && c ≤ 'Z') || ('0' ≤ c && c ≤ '9')
    || c = '_' || c = '.' || c = '-')

/-- Python `re.match` with the pattern `[a-zA-Z0-9_.-]*`: the match succeeds
iff some prefix of the string (possibly the empty prefix) consists of
characters of the class.  This is the semantics of `Identifier._part_regex
.match(part)` being truthy in `Identifier.__new__`. -/
def part_regex_match (part : String) : Bool :=
  (List.range (part.length + 1)).any (fun n => (part.toList.take n).all part_char)

/-- `Identifier.__new__` from `definitions/identifier.py`: validates the kind,
the number of parts and (intended) the character set of each part, raising
`ValueError` on violation. -/
def identifier_new (data : String) : Except PyError Identifier :=
  if data = "*" then Except.ok data
  else
    let parts := pySplit ':' data
    if ¬ kinds.contains (parts.headD "") then Except.error PyError.valueError
    else if parts.length ≠ lengths (parts.headD "") then Except.error PyError.valueError
    else if ¬ parts.all part_regex_match then Except.error PyError.valueError
    else Except.ok data

/-- `Identifier.from_id_hash`: builds `result:<id_hash>` through the
validating constructor. -/
def from_id_hash (id_hash : String) : Except PyError Identifier :=
  identifier_new ("result:" ++ id_hash)

/-- `Identifier.location`: defined for concrete `asset:` identifiers, raises
`RuntimeError` otherwise (`none` here).  Indexing of parts 3 and 4 uses a
default; constructed `asset:` identifiers always have five parts. -/
def location (s : Identifier) : Option Identifier :=
  let parts := pySplit ':' s
  if parts.headD "" = "asset" then
    some ("site:" ++ parts.getD 3 "" ++ ":" ++ parts.getD 4 "")
  else none

/-- Python `a, b = s.split('.')`: succeeds only when the split yields exactly
two parts, raising `ValueError` (`none`) otherwise. -/
def split2 (s : String) : Option (String × String) :=
  match pySplit '.' s with
  | [a, b] => some (a, b)
  | _ => none

/-- `Metadata` from `definitions/assets.py` (as used by the asset store and
the step runner): the producing sub-job and the produced item. The job type
`J` is abstract here. -/
structure Metadata (J : Type) where
  job : J
  item : String
deriving DecidableEq

/-- An asset as stored by `AssetStore`: identifier, payload and metadata.
The payload type `D` is abstract. -/
structure Asset (D J : Type) where
  id : Identifier
  data : D
  metadata : Metadata J
deriving DecidableEq

/-- Modelled from the spec: the policy evaluation engine
(`policy/evaluation.py`, not part of the source tree) is opaque.
`calculate_permissions` stands for `PermissionCalculator
.calculate_permissions(job)[item]`, with `none` for a missing item
(`KeyError`); `may_access` is `PolicyEvaluator.may_access(perm, requester)`. -/
structure PolicyEvaluator (J P : Type) where
  calculate_permissions : J → String → Option P
  may_access : P → String → Bool

/-- The state of `AssetStore`: the `_assets` dictionary, as an association
list keyed by `Asset.id` (newest first; ids are unique because `store`
refuses duplicates). -/
structure AssetStore (D J : Type) where
  assets : List (Asset D J)
deriving DecidableEq

/-- Dictionary lookup `self._assets[asset_id]`. -/
def AssetStore.lookup {D J : Type} (st : AssetStore D J) (asset_id : Identifier) :
    Option (Asset D J) :=
  st.assets.find? (fun a => a.id == asset_id)

/-- `AssetStore.store` from `components/asset_store.py`: raises `KeyError` if
an asset with this id is already present, otherwise inserts.  The store state
is threaded explicitly; on an error the state is returned unchanged. -/
def AssetStore.store {D J : Type} (st : AssetStore D J) (asset : Asset D J) :
    Except PyError Unit × AssetStore D J :=
  if (st.lookup asset.id).isSome then (Except.error PyError.keyError, st)
  else (Except.ok (), ⟨asset :: st.assets⟩)

/-- `AssetStore.retrieve` from `components/asset_store.py`: looks the asset
up, computes the permissions of its metadata item, checks `may_access` for
the requester and raises `RuntimeError` on denial.  A `KeyError` from the
permissions lookup is caught and re-raised as `KeyError`.  The state is
threaded explicitly; the method performs no writes. -/
def AssetStore.retrieve {D J P : Type} (pe : PolicyEvaluator J P)
    (st : AssetStore D J) (asset_id : Identifier) (requester : String) :
    Except PyError (Asset D J) × AssetStore D J :=
  match st.lookup asset_id with
  | none => (Except.error PyError.keyError, st)
  | some asset =>
    match pe.calculate_permissions asset.metadata.job asset.metadata.item with
    | none => (Except.error PyError.keyError, st)
    | some perm =>
      if pe.may_access perm requester then (Except.ok asset, st)
      else (Except.error PyError.runtimeError, st)

/-- `SiteDescription` from `definitions/registry.py`. -/
structure SiteDescription where
  id : Identifier
  owner_id : Identifier
  admin_id : Identifier
  endpoint : String
  runner : Bool
  store : Bool
  site_namespace : Option String
deriving DecidableEq

/-- `SiteDescription.__init__` from `definitions/registry.py`: after setting
the attributes it raises `RuntimeError` when `runner and not store`, so
construction yields an object only when the invariant holds. -/
def SiteDescription.make (site_id owner_id admin_id endpoint : Identifier)
    (runner store : Bool) (site_namespace : Option String) :
    Except PyError SiteDescription :=
  if runner && !store then Except.error PyError.runtimeError
  else Except.ok ⟨site_id, owner_id, admin_id, endpoint, runner, store, site_namespace⟩

/-- Modelled from the spec: the `PartyDescription` record used by
`registry.py` comes from the old `definitions` module, which is not part of
the source tree.  Per the spec a party is `{id/name, public_key}`; only the
fields that `registry.py` reads (`name`) are relevant, the key is opaque. -/
structure PartyDescriptionV0 where
  name : String
  public_key : String
deriving DecidableEq

/-- Modelled from the spec: the `SiteDescription` record used by
`registry.py` comes from the old `definitions` module, which is not part of
the source tree.  Only the fields `registry.py` reads are modelled: the
site's `name` and the names of its owner and admin parties. -/
structure SiteDescriptionV0 where
  name : String
  owner_name : String
  admin_name : String
deriving DecidableEq

/-- A `RegisteredObject` of `registry.py`: either a party or a site. -/
inductive RegisteredObjectV0 where
  | party (p : PartyDescriptionV0)
  | site (s : SiteDescriptionV0)
deriving DecidableEq

/-- The canonical store of `Registry` (`registry.py`).  Modelled from the
spec: `CanonicalStore` (`replication.py`, not part of the source tree) holds
the set of registered objects; `insert` appends an object. -/
structure Registry where
  objects : List RegisteredObjectV0
deriving DecidableEq

/-- `Registry._get_object(PartyDescription, 'name', name)`: the first party
in the store with the given name, if any. -/
def Registry.get_party (r : Registry) (name : String) : Option PartyDescriptionV0 :=
  r.objects.findSome? (fun o =>
    match o with
    | RegisteredObjectV0.party p => if p.name = name then some p else none
    | RegisteredObjectV0.site _ => none)

/-- `Registry._get_object(SiteDescription, 'name', name)`. -/
def Registry.get_site (r : Registry) (name : String) : Option SiteDescriptionV0 :=
  r.objects.findSome? (fun o =>
    match o with
    | RegisteredObjectV0.party _ => none
    | RegisteredObjectV0.site s => if s.name = name then some s else none)

/-- `Registry._in_store(PartyDescription, 'name', name)`. -/
def Registry.in_store_party (r : Registry) (name : String) : Bool :=
  (r.get_party name).isSome

/-- `Registry._in_store(SiteDescription, 'name', name)`. -/
def Registry.in_store_site (r : Registry) (name : String) : Bool :=
  (r.get_site name).isSome

/-- `Registry.register_party` from `registry.py`: raises `RuntimeError` when
a party with this name is already registered, otherwise inserts. -/
def Registry.register_party (r : Registry) (description : PartyDescriptionV0) :
    Except PyError Registry :=
  if r.in_store_party description.name then Except.error PyError.runtimeError
  else Except.ok ⟨r.objects ++ [RegisteredObjectV0.party description]⟩

/-- `Registry.register_site` from `registry.py`: raises `RuntimeError` when a
site with this name is already registered or when the owner or admin party is
not found, otherwise inserts. -/
def Registry.register_site (r : Registry) (description : SiteDescriptionV0) :
    Except PyError Registry :=
  if r.in_store_site description.name then Except.error PyError.runtimeError
  else
    match r.get_party description.owner_name with
    | none => Except.error PyError.runtimeError
    | some _ =>
      match r.get_party description.admin_name with
      | none => Except.error PyError.runtimeError
      | some _ => Except.ok ⟨r.objects ++ [RegisteredObjectV0.site description]⟩

/-- `WorkflowStep` (as consumed by `components/step_runner.py`): a name, a
compute asset identifier, the inputs as `name → source` pairs and the output
names. -/
structure WorkflowStep where
  name : String
  compute_asset_id : Identifier
  inputs : List (String × String)
  outputs : List String
deriving DecidableEq

/-- A compute asset as used by the runner: only its `run` callable, mapping
an input bundle keyed by input name to an output bundle keyed by output
name. -/
structure ComputeAsset (D : Type) where
  run : List (String × D) → List (String × D)

/-- The context of one `JobRun` (`components/step_runner.py`).  The REST
client and the workflow module are not part of the source tree; modelled
from the spec:
* `retrieve_asset site id` is `site_rest_client.retrieve_asset(site, id)`,
  raising `KeyError` for a not-yet-available asset and `RuntimeError` for an
  access denial;
* `retrieve_compute_asset` is `JobRun._retrieve_compute_asset` (location
  lookup, REST retrieval and the compute-asset type check);
* `sites` is the `plan.step_sites` dictionary;
* `job_inputs` is the `job.inputs` dictionary;
* `id_hashes` is the dictionary returned by `job.id_hashes()`;
* `subjob` is `job.subjob(step)`. -/
structure JobContext (D J : Type) where
  retrieve_asset : Identifier → Identifier → Except PyError (Asset D J)
  retrieve_compute_asset : Identifier → Except PyError (ComputeAsset D)
  sites : String → Option Identifier
  job_inputs : String → Option Identifier
  id_hashes : String → Option String
  subjob : WorkflowStep → J

/-- The site that will serve an input, as computed inside
`JobRun._is_legal`: `plan.step_sites[src_step]` for an intra-workflow edge,
`job.inputs[inp_src].location()` for a workflow input. -/
def source_site (sites : String → Option Identifier)
    (job_inputs : String → Option Identifier) (inp_src : String) :
    Except PyError Identifier :=
  if containsChar inp_src '.' then
    match split2 inp_src with
    | none => Except.error PyError.valueError
    | some (src_step, _) =>
      match sites src_step with
      | none => Except.error PyError.keyError
      | some s => Except.ok s
  else
    match job_inputs inp_src with
    | none => Except.error PyError.keyError
    | some inp_asset_id =>
      match location inp_asset_id with
      | none => Except.error PyError.runtimeError
      | some s => Except.ok s

/-- The per-input loop of `JobRun._is_legal`: for each input, check that this
site may access the input item and that the serving site may access the
source item.  `Except.ok false` is the `return False` short-circuit. -/
def check_inputs {P : Type} (ma : P → Identifier → Bool)
    (perms : String → Option P) (sites : String → Option Identifier)
    (job_inputs : String → Option Identifier) (this_site : Identifier)
    (step_name : String) : List (String × String) → Except PyError Bool
  | [] => Except.ok true
  | (inp_name, inp_src) :: rest =>
    match perms (step_name ++ "." ++ inp_name) with
    | none => Except.error PyError.keyError
    | some inp_perms =>
      if ma inp_perms this_site then
        match source_site sites job_inputs inp_src with
        | Except.error e => Except.error e
        | Except.ok src_site =>
          match perms inp_src with
          | none => Except.error PyError.keyError
          | some p =>
            if ma p src_site then
              check_inputs ma perms sites job_inputs this_site step_name rest
            else Except.ok false
      else Except.ok false

/-- The per-output loop of `JobRun._is_legal`: this site must be allowed to
access every output item `<step>.<output>`. -/
def check_outputs {P : Type} (ma : P → Identifier → Bool)
    (perms : String → Option P) (this_site : Identifier)
    (step_name : String) : List String → Except PyError Bool
  | [] => Except.ok true
  | outp_name :: rest =>
    match perms (step_name ++ "." ++ outp_name) with
    | none => Except.error PyError.keyError
    | some outp_perms =>
      if ma outp_perms this_site then
        check_outputs ma perms this_site step_name rest
      else Except.ok false

/-- The body of `JobRun._is_legal` for one step assigned to this site:
inputs, then the compute asset binding, then the outputs. -/
def check_step {P : Type} (ma : P → Identifier → Bool)
    (perms : String → Option P) (sites : String → Option Identifier)
    (job_inputs : String → Option Identifier) (this_site : Identifier)
    (step : WorkflowStep) : Except PyError Bool :=
  match check_inputs ma perms sites job_inputs this_site step.name step.inputs with
  | Except.error e => Except.error e
  | Except.ok false => Except.ok false
  | Except.ok true =>
    match perms step.name with
    | none => Except.error PyError.keyError
    | some step_perms =>
      if ma step_perms this_site then
        check_outputs ma perms this_site step.name step.outputs
      else Except.ok false

/-- `JobRun._is_legal` from `components/step_runner.py`: every workflow step
assigned to this site must pass all of its checks.  `perms` is the result of
`PermissionCalculator.calculate_permissions(job)` (opaque, see
`PolicyEvaluator`); `ma` is `PolicyEvaluator.may_access`. -/
def is_legal {P : Type} (ma : P → Identifier → Bool)
    (perms : String → Option P) (sites : String → Option Identifier)
    (job_inputs : String → Option Identifier) (this_site : Identifier) :
    List WorkflowStep → Except PyError Bool
  | [] => Except.ok true
  | step :: rest =>
    match sites step.name with
    | none => Except.error PyError.keyError
    | some site =>
      if site = this_site then
        match check_step ma perms sites job_inputs this_site step with
        | Except.error e => Except.error e
        | Except.ok false => Except.ok false
        | Except.ok true => is_legal ma perms sites job_inputs this_site rest
      else is_legal ma perms sites job_inputs this_site rest

/-- `JobRun._source` from `components/step_runner.py`: for an intra-workflow
edge, the planned site of the producing step and the `result:` identifier
built from the item's id hash; for a workflow input, the asset's location
and its identifier. -/
def jobrun_source {D J : Type} (ctx : JobContext D J) (inp_source : String) :
    Except PyError (Identifier × Identifier) :=
  if containsChar inp_source '.' then
    match split2 inp_source with
    | none => Except.error PyError.valueError
    | some (step_name, _) =>
      match ctx.sites step_name with
      | none => Except.error PyError.keyError
      | some site =>
        match ctx.id_hashes inp_source with
        | none => Except.error PyError.keyError
        | some h =>
          match from_id_hash h with
          | Except.error e => Except.error e
          | Except.ok rid => Except.ok (site, rid)
  else
    match ctx.job_inputs inp_source with
    | none => Except.error PyError.keyError
    | some dataset =>
      match location dataset with
      | none => Except.error PyError.runtimeError
      | some l => Except.ok (l, dataset)

/-- Outcome of `JobRun._get_step_inputs`: an uncaught exception, `None`
(some input not yet available), or the input bundle. -/
inductive InputsResult (D : Type) where
  | exn (e : PyError)
  | notYet
  | ready (data : List (String × D))
deriving DecidableEq

/-- The loop of `JobRun._get_step_inputs`: resolve each input's source and
request the asset from the serving site; a `KeyError` from the request means
the input is not yet available and the whole call returns `None`; any other
exception propagates. -/
def get_step_inputs_go {D J : Type} (ctx : JobContext D J) :
    List (String × String) → List (String × D) → InputsResult D
  | [], acc => InputsResult.ready acc.reverse
  | (inp_name, inp_source) :: rest, acc =>
    match jobrun_source ctx inp_source with
    | Except.error e => InputsResult.exn e
    | Except.ok (source_site, source_asset) =>
      match ctx.retrieve_asset source_site source_asset with
      | Except.error PyError.keyError => InputsResult.notYet
      | Except.error e => InputsResult.exn e
      | Except.ok asset => get_step_inputs_go ctx rest ((inp_name, asset.data) :: acc)

/-- `JobRun._get_step_inputs` from `components/step_runner.py`. -/
def get_step_inputs {D J : Type} (ctx : JobContext D J) (step : WorkflowStep) :
    InputsResult D :=
  get_step_inputs_go ctx step.inputs []

/-- The output-persisting loop of `JobRun.run` (`components/step_runner.py`
lines 94-101): for each output produce a `DataAsset` whose identifier is
`result:<id_hash("<step>.<output>")>` and whose metadata is the step's
sub-job and the item string, and insert it into the target store.  The
store state is threaded; an error carries the partially updated store. -/
def store_outputs {D J : Type} (id_hashes : String → Option String)
    (step_subjob : J) (step_name : String) :
    List (String × D) → AssetStore D J → Except PyError Unit × AssetStore D J
  | [], st => (Except.ok (), st)
  | (output_name, output_value) :: rest, st =>
    let result_item := step_name ++ "." ++ output_name
    match id_hashes result_item with
    | none => (Except.error PyError.keyError, st)
    | some result_id_hash =>
      match from_id_hash result_id_hash with
      | Except.error e => (Except.error e, st)
      | Except.ok rid =>
        let asset : Asset D J := ⟨rid, output_value, ⟨step_subjob, result_item⟩⟩
        match AssetStore.store st asset with
        | (Except.ok _, st2) => store_outputs id_hashes step_subjob step_name rest st2
        | (Except.error e, st2) => (Except.error e, st2)

/-- Outcome of one pass of the `for step in steps_to_do` scan inside
`JobRun.run`. -/
inductive ScanResult (D J : Type) where
  | noProgress
  | crashed (e : PyError) (store : AssetStore D J)
  | executed (step : WorkflowStep) (store : AssetStore D J)

/-- One scan over the remaining steps (`JobRun.run`): for each step, fetch
its inputs (an exception propagates), retrieve its compute asset (evaluated
even when the inputs are not yet available, as in the source), and when the
inputs are ready run the compute asset, persist the outputs and stop the
scan; otherwise move on to the next step. -/
def scan {D J : Type} (ctx : JobContext D J) (store : AssetStore D J) :
    List WorkflowStep → ScanResult D J
  | [] => ScanResult.noProgress
  | step :: rest =>
    match get_step_inputs ctx step with
    | InputsResult.exn e => ScanResult.crashed e store
    | inputs =>
      match ctx.retrieve_compute_asset step.compute_asset_id with
      | Except.error e => ScanResult.crashed e store
      | Except.ok compute_asset =>
        match inputs with
        | InputsResult.ready inp =>
          let outputs := compute_asset.run inp
          match store_outputs ctx.id_hashes (ctx.subjob step) step.name outputs store with
          | (Except.ok _, st2) => ScanResult.executed step st2
          | (Except.error e, st2) => ScanResult.crashed e st2
        | _ => scan ctx store rest

/-- Outcome of a `JobRun`: the job finished, the fuel ran out with steps
still to do, or an exception crashed the thread.  `sleeps` counts the
back-off sleeps taken so far. -/
inductive RunResult (D J : Type) where
  | done (store : AssetStore D J) (sleeps : Nat)
  | outOfFuel (todo : List WorkflowStep) (store : AssetStore D J) (sleeps : Nat)
  | crashed (e : PyError) (store : AssetStore D J) (sleeps : Nat)

/-- The `while len(steps_to_do) > 0` loop of `JobRun.run`, with explicit
fuel: a scan that executed a step removes it from the todo set and rescans;
a scan with no progress sleeps (counted) and rescans; an exception crashes
the run. -/
def run_loop {D J : Type} (ctx : JobContext D J) :
    Nat → List WorkflowStep → AssetStore D J → Nat → RunResult D J
  | _, [], store, sleeps => RunResult.done store sleeps
  | 0, todo, store, sleeps => RunResult.outOfFuel todo store sleeps
  | fuel + 1, todo, store, sleeps =>
    match scan ctx store todo with
    | ScanResult.crashed e st2 => RunResult.crashed e st2 sleeps
    | ScanResult.executed step st2 => run_loop ctx fuel (todo.erase step) st2 sleeps
    | ScanResult.noProgress => run_loop ctx fuel todo store (sleeps + 1)

/-- `JobRun.run` from `components/step_runner.py`: first the legality check
(`RuntimeError` when it returns `False`, a propagated exception when it
raises), then the execution loop over the steps assigned to this site. -/
def jobrun_run {D J P : Type} (ma : P → Identifier → Bool)
    (perms : String → Option P) (ctx : JobContext D J) (this_site : Identifier)
    (steps : List WorkflowStep) (fuel : Nat) (store : AssetStore D J) :
    RunResult D J :=
  match is_legal ma perms ctx.sites ctx.job_inputs this_site steps with
  | Except.error e => RunResult.crashed e store 0
  | Except.ok false => RunResult.crashed PyError.runtimeError store 0
  | Except.ok true =>
    let todo := steps.filter (fun s => ctx.sites s.name == some this_site)
    run_loop ctx fuel todo store 0

/-! Concrete instances used by the witnesses below. -/

/-- A policy evaluator that always grants access. -/
def peW : PolicyEvaluator Unit Unit := ⟨fun _ _ => some (), fun _ _ => true⟩

/-- A stored result asset. -/
def assetW : Asset Nat Unit := ⟨"result:abc", 42, ⟨(), "A.y"⟩⟩

/-- A store holding `assetW`. -/
def stW : AssetStore Nat Unit := ⟨[assetW]⟩

/-- An asset to insert twice. -/
def dupAsset : Asset Nat Unit := ⟨"asset:ns:x:ns:s1", 7, ⟨(), "x"⟩⟩

/-- A store already holding `dupAsset`. -/
def dupStore : AssetStore Nat Unit := ⟨[dupAsset]⟩

/-- An empty store. -/
def stEmpty : AssetStore Nat Unit := ⟨[]⟩

/-- A one-step workflow: step `A`, no inputs, one output `y`. -/
def stepA : WorkflowStep := ⟨"A", "asset:ns:identity:ns:s1", [], ["y"]⟩

/-- A step with one workflow input. -/
def stepB : WorkflowStep := ⟨"B", "asset:ns:c:ns:s1", [("x", "k")], ["y"]⟩

/-- The executing site. -/
def siteW : Identifier := "site:ns:s1"

/-- Permissions defined for every item. -/
def permsW : String → Option Unit := fun _ => some ()

/-- `may_access` that always grants. -/
def maTrue : Unit → Identifier → Bool := fun _ _ => true

/-- `may_access` that always denies. -/
def maFalse : Unit → Identifier → Bool := fun _ _ => false

/-- A plan assigning step `A` (and `B`) to `siteW`. -/
def sitesW : String → Option Identifier :=
  fun n => if n = "A" then some siteW else if n = "B" then some siteW else none

/-- Job inputs: key `k` is a concrete asset. -/
def jiW : String → Option Identifier :=
  fun s => if s = "k" then some "asset:ns:d:ns:s1" else none

/-- Id hashes: item `A.y` hashes to `h1000`. -/
def ihW : String → Option String := fun s => if s = "A.y" then some "h1000" else none

/-- A job context whose peer store has nothing yet. -/
def ctxW : JobContext Nat Unit :=
  ⟨fun _ _ => Except.error PyError.keyError, fun _ => Except.ok ⟨fun i => i⟩,
   sitesW, jiW, ihW, fun _ => ()⟩

/-- Registered parties and a site for the registry witnesses. -/
def p1 : PartyDescriptionV0 := ⟨"p1", "key1"⟩

/-- A second registered party. -/
def p2 : PartyDescriptionV0 := ⟨"p2", "key2"⟩

/-- A party not yet registered. -/
def p3 : PartyDescriptionV0 := ⟨"p3", "key3"⟩

/-- A registered site owned and administered by `p1`. -/
def s1 : SiteDescriptionV0 := ⟨"s1", "p1", "p1"⟩

/-- A registry holding `p1`, `p2` and `s1`. -/
def regW : Registry :=
  ⟨[RegisteredObjectV0.party p1, RegisteredObjectV0.party p2, RegisteredObjectV0.site s1]⟩

/-- A site whose name collides with `s1`. -/
def sdDup : SiteDescriptionV0 := ⟨"s1", "p1", "p2"⟩

/-- A site whose owner is not registered. -/
def sdNoOwner : SiteDescriptionV0 := ⟨"s2", "zz", "p1"⟩

/-- A site whose admin is not registered. -/
def sdNoAdmin : SiteDescriptionV0 := ⟨"s3", "p1", "zz"⟩

/-- A registrable site. -/
def sdOk : SiteDescriptionV0 := ⟨"s4", "p1", "p2"⟩

/-! Theorems. -/

/-- C1: For every store state, asset id and requester, if
`AssetStore.retrieve` returns an asset rather than raising, then that asset
is the one stored under the id and `may_access` held for the requester on the
permission set computed for the asset's metadata item; a requester without
permission never receives the asset. -/
theorem retrieve_checks_policy {D J P : Type} (pe : PolicyEvaluator J P)
    (st st2 : AssetStore D J) (asset_id : Identifier) (requester : String)
    (a : Asset D J)
    (h : AssetStore.retrieve pe st asset_id requester = (Except.ok a, st2)) :
    st.lookup asset_id = some a ∧
      ∃ perm, pe.calculate_permissions a.metadata.job a.metadata.item = some perm ∧
        pe.may_access perm requester = true := by
  unfold AssetStore.retrieve at h
  split at h
  next hl => simp at h
  next asset hl =>
    split at h
    next hp => simp at h
    next perm hp =>
      split at h
      next hm =>
        rw [Prod.mk.injEq] at h
        obtain ⟨h1, -⟩ := h
        injection h1 with h1
        subst h1
        exact ⟨hl, perm, hp, hm⟩
      next hm => simp at h

/-- Witness for C1: on a concrete store and a requester that the policy
admits, `retrieve` succeeds and the access condition holds. -/
theorem retrieve_checks_policy_witness :
    stW.lookup "result:abc" = some assetW ∧
      ∃ perm, peW.calculate_permissions assetW.metadata.job assetW.metadata.item =
          some perm ∧ peW.may_access perm "site:ns:req" = true :=
  retrieve_checks_policy peW stW stW "result:abc" "site:ns:req" assetW rfl

/-- C10: `AssetStore.retrieve` never mutates the store: whatever it returns
or raises, the stored-asset mapping afterwards is the one from before the
call. -/
theorem retrieve_never_mutates {D J P : Type} (pe : PolicyEvaluator J P)
    (st : AssetStore D J) (asset_id : Identifier) (requester : String) :
    (AssetStore.retrieve pe st asset_id requester).2 = st := by
  unfold AssetStore.retrieve
  split
  · rfl
  · split
    · rfl
    · split <;> rfl

/-- Counterexample to C2 as stated: `dupStore` already holds `dupAsset` (same
identifier, same payload), yet `store` raises `KeyError` instead of being a
no-op. -/
theorem store_same_asset_twice_errors :
    dupStore.lookup dupAsset.id = some dupAsset ∧
      (AssetStore.store dupStore dupAsset).1 = Except.error PyError.keyError :=
  ⟨rfl, rfl⟩

/-- C2 (amended): storing an asset whose identifier is already present
raises `KeyError` — even when the stored payload is identical — and leaves
the store's state unchanged. -/
theorem store_duplicate_id_raises {D J : Type} (st : AssetStore D J)
    (a : Asset D J) (h : (st.lookup a.id).isSome = true) :
    AssetStore.store st a = (Except.error PyError.keyError, st) := by
  simp [AssetStore.store, h]

/-- Witness for the amended C2. -/
theorem store_duplicate_id_raises_witness :
    AssetStore.store dupStore dupAsset = (Except.error PyError.keyError, dupStore) :=
  store_duplicate_id_raises dupStore dupAsset rfl

/-- The charset check in `Identifier.__new__` is dead code: `re.match` with
the star-quantified pattern `[a-zA-Z0-9_.-]*` always succeeds, because the
empty prefix matches. -/
theorem part_regex_match_always (part : String) : part_regex_match part = true := by
  unfold part_regex_match
  rw [List.any_eq_true]
  exact ⟨0, List.mem_range.mpr (Nat.succ_pos _), rfl⟩

/-- C6 (code bug): the string `site:my ns:x` has a valid kind and part count
but a segment with a character (a space) outside `[A-Za-z0-9_.-]`; the claim
says construction must fail, yet `Identifier.__new__` accepts it, because
its `re.match` charset check never fires. -/
theorem identifier_charset_not_enforced :
    (∃ part ∈ pySplit ':' "site:my ns:x", ∃ c ∈ part.toList, part_char c = false) ∧
      identifier_new "site:my ns:x" = Except.ok "site:my ns:x" := by
  constructor
  · exact ⟨"my ns", by decide, ' ', by decide, rfl⟩
  · rfl

/-- C9: a successfully constructed `SiteDescription` satisfies
`has_runner ⇒ has_store`, and construction with `runner = True`,
`store = False` raises `RuntimeError`. -/
theorem site_description_runner_needs_store
    (site_id owner_id admin_id endpoint : Identifier) (runner store : Bool)
    (ns : Option String) :
    (∀ sd, SiteDescription.make site_id owner_id admin_id endpoint runner store ns =
        Except.ok sd → sd.runner = true → sd.store = true) ∧
    (runner = true → store = false →
      SiteDescription.make site_id owner_id admin_id endpoint runner store ns =
        Except.error PyError.runtimeError) := by
  constructor
  · intro sd h hr
    cases runner <;> cases store <;>
      simp [SiteDescription.make] at h <;>
      first
        | (subst h; rfl)
        | (subst h; simp_all)
  · intro hr hs
    subst hr; subst hs
    rfl

/-- Witness for C9: the illegal combination is rejected, and a constructed
description with a runner has a store. -/
theorem site_description_runner_needs_store_witness :
    SiteDescription.make "site:ns:s1" "party:ns:p1" "party:ns:p1" "http://x" true false
        none = Except.error PyError.runtimeError ∧
      (⟨"site:ns:s1", "party:ns:p1", "party:ns:p1", "http://x", true, true, none⟩ :
          SiteDescription).store = true :=
  ⟨(site_description_runner_needs_store "site:ns:s1" "party:ns:p1" "party:ns:p1"
      "http://x" true false none).2 rfl rfl,
   (site_description_runner_needs_store "site:ns:s1" "party:ns:p1" "party:ns:p1"
      "http://x" true true none).1
      ⟨"site:ns:s1", "party:ns:p1", "party:ns:p1", "http://x", true, true, none⟩ rfl rfl⟩

/-- C7: `register_party` and `register_site` raise `RuntimeError` when an
object of the same kind with the same name is already registered;
`register_site` also raises unless both the owner and the admin resolve to
registered parties; on success the new description is inserted into the
store. -/
theorem registry_register_unique_and_resolved (r : Registry)
    (pd : PartyDescriptionV0) (sd : SiteDescriptionV0) :
    (r.in_store_party pd.name = true →
      r.register_party pd = Except.error PyError.runtimeError) ∧
    (r.in_store_site sd.name = true →
      r.register_site sd = Except.error PyError.runtimeError) ∧
    (r.get_party sd.owner_name = none →
      r.register_site sd = Except.error PyError.runtimeError) ∧
    (r.get_party sd.admin_name = none →
      r.register_site sd = Except.error PyError.runtimeError) ∧
    (∀ r2, r.register_party pd = Except.ok r2 →
      RegisteredObjectV0.party pd ∈ r2.objects) ∧
    (∀ r2, r.register_site sd = Except.ok r2 →
      RegisteredObjectV0.site sd ∈ r2.objects) := by
  refine ⟨?_, ?_, ?_, ?_, ?_, ?_⟩
  · intro h
    simp [Registry.register_party, h]
  · intro h
    simp [Registry.register_site, h]
  · intro h
    unfold Registry.register_site
    split
    · rfl
    · rw [h]
  · intro h
    unfold Registry.register_site
    split
    · rfl
    · split
      · rfl
      · rw [h]
  · intro r2 h
    unfold Registry.register_party at h
    split at h
    · simp at h
    · injection h with h
      subst h
      simp
  · intro r2 h
    unfold Registry.register_site at h
    split at h
    · simp at h
    · split at h
      · simp at h
      · split at h
        · simp at h
        · injection h with h
          subst h
          simp

/-- Witness for C7: a duplicate party name, a duplicate site name, an
unregistered owner and an unregistered admin are all rejected on `regW`,
while fresh registrations insert the description. -/
theorem registry_register_unique_and_resolved_witness :
    regW.register_party p1 = Except.error PyError.runtimeError ∧
      regW.register_site sdDup = Except.error PyError.runtimeError ∧
      regW.register_site sdNoOwner = Except.error PyError.runtimeError ∧
      regW.register_site sdNoAdmin = Except.error PyError.runtimeError ∧
      RegisteredObjectV0.party p3 ∈
        (⟨regW.objects ++ [RegisteredObjectV0.party p3]⟩ : Registry).objects ∧
      RegisteredObjectV0.site sdOk ∈
        (⟨regW.objects ++ [RegisteredObjectV0.site sdOk]⟩ : Registry).objects :=
  ⟨(registry_register_unique_and_resolved regW p1 sdDup).1 rfl,
   (registry_register_unique_and_resolved regW p1 sdDup).2.1 rfl,
   (registry_register_unique_and_resolved regW p1 sdNoOwner).2.2.1 rfl,
   (registry_register_unique_and_resolved regW p1 sdNoAdmin).2.2.2.1 rfl,
   (registry_register_unique_and_resolved regW p3 sdOk).2.2.2.2.1
     ⟨regW.objects ++ [RegisteredObjectV0.party p3]⟩ rfl,
   (registry_register_unique_and_resolved regW p3 sdOk).2.2.2.2.2
     ⟨regW.objects ++ [RegisteredObjectV0.site sdOk]⟩ rfl⟩

/-- If the output loop of `_is_legal` succeeds, every output item was
checked and found accessible to this site. -/
theorem check_outputs_ok_true {P : Type} (ma : P → Identifier → Bool)
    (perms : String → Option P) (this_site : Identifier) (step_name : String)
    (outs : List String)
    (h : check_outputs ma perms this_site step_name outs = Except.ok true) :
    ∀ o ∈ outs, ∃ p, perms (step_name ++ "." ++ o) = some p ∧
      ma p this_site = true := by
  induction outs with
  | nil => intro o ho; cases ho
  | cons o rest ih =>
    intro x hx
    unfold check_outputs at h
    split at h
    next hp => cases h
    next p hp =>
      split at h
      next hm =>
        rcases List.mem_cons.mp hx with rfl | hx2
        · exact ⟨p, hp, hm⟩
        · exact ih h x hx2
      next hm => cases h

/-- If `check_step` succeeds for a step, its output checks succeeded. -/
theorem check_step_ok_outputs {P : Type} (ma : P → Identifier → Bool)
    (perms : String → Option P) (sites : String → Option Identifier)
    (ji : String → Option Identifier) (this_site : Identifier)
    (step : WorkflowStep)
    (h : check_step ma perms sites ji this_site step = Except.ok true) :
    check_outputs ma perms this_site step.name step.outputs = Except.ok true := by
  unfold check_step at h
  split at h
  next he => cases h
  next => cases h
  next =>
    split at h
    next hp => cases h
    next p hp =>
      split at h
      next hm => exact h
      next hm => cases h

/-- If `_is_legal` returns `True`, every step assigned to this site passed
its `check_step`. -/
theorem is_legal_local_step {P : Type} (ma : P → Identifier → Bool)
    (perms : String → Option P) (sites : String → Option Identifier)
    (ji : String → Option Identifier) (this_site : Identifier)
    (steps : List WorkflowStep)
    (h : is_legal ma perms sites ji this_site steps = Except.ok true) :
    ∀ step ∈ steps, sites step.name = some this_site →
      check_step ma perms sites ji this_site step = Except.ok true := by
  induction steps with
  | nil => intro s hs; cases hs
  | cons a rest ih =>
    intro s hs hsite
    unfold is_legal at h
    split at h
    next hA => cases h
    next site hA =>
      split at h
      next he =>
        subst he
        split at h
        next => cases h
        next => cases h
        next hc =>
          rcases List.mem_cons.mp hs with rfl | hs2
          · exact hc
          · exact ih h s hs2 hsite
      next he =>
        rcases List.mem_cons.mp hs with rfl | hs2
        · rw [hA] at hsite
          injection hsite with hsite
          exact absurd hsite he
        · exact ih h s hs2 hsite

/-- C3: if the pre-flight legality check accepts the job, then for every
step assigned to the executing site and every output item
`<step>.<output>` of that step, the permission lookup succeeded and this
site may access the item; contrapositively, a failing output check means the
job is not accepted as legal. -/
theorem is_legal_checks_outputs {P : Type} (ma : P → Identifier → Bool)
    (perms : String → Option P) (sites : String → Option Identifier)
    (ji : String → Option Identifier) (this_site : Identifier)
    (steps : List WorkflowStep)
    (h : is_legal ma perms sites ji this_site steps = Except.ok true) :
    ∀ step ∈ steps, sites step.name = some this_site →
      ∀ o ∈ step.outputs, ∃ p, perms (step.name ++ "." ++ o) = some p ∧
        ma p this_site = true := by
  intro step hstep hsite
  exact check_outputs_ok_true ma perms this_site step.name step.outputs
    (check_step_ok_outputs ma perms sites ji this_site step
      (is_legal_local_step ma perms sites ji this_site steps h step hstep hsite))

/-- Witness for C3: a concrete one-step job that the check accepts, with the
output property instantiated. -/
theorem is_legal_checks_outputs_witness :
    is_legal maTrue permsW sitesW jiW siteW [stepA] = Except.ok true ∧
      ∀ step ∈ [stepA], sitesW step.name = some siteW →
        ∀ o ∈ step.outputs, ∃ p, permsW (step.name ++ "." ++ o) = some p ∧
          maTrue p siteW = true :=
  ⟨rfl, is_legal_checks_outputs maTrue permsW sitesW jiW siteW [stepA] rfl⟩

/-- C4: when the legality check returns `False`, `JobRun.run` raises
`RuntimeError` before executing any step: no scan is made, no back-off sleep
happens and the target store is returned unchanged. -/
theorem jobrun_illegal_aborts {D J P : Type} (ma : P → Identifier → Bool)
    (perms : String → Option P) (ctx : JobContext D J) (this_site : Identifier)
    (steps : List WorkflowStep) (fuel : Nat) (store : AssetStore D J)
    (h : is_legal ma perms ctx.sites ctx.job_inputs this_site steps =
      Except.ok false) :
    jobrun_run ma perms ctx this_site steps fuel store =
      RunResult.crashed PyError.runtimeError store 0 := by
  unfold jobrun_run
  rw [h]

/-- Witness for C4: a concrete illegal job is rejected with the store
untouched. -/
theorem jobrun_illegal_aborts_witness :
    jobrun_run maFalse permsW ctxW siteW [stepA] 3 stEmpty =
      RunResult.crashed PyError.runtimeError stEmpty 0 :=
  jobrun_illegal_aborts maFalse permsW ctxW siteW [stepA] 3 stEmpty rfl

/-- `Identifier.__new__` returns its input on success. -/
theorem identifier_new_ok (s t : String) (h : identifier_new s = Except.ok t) :
    t = s := by
  simp only [identifier_new] at h
  split at h
  · injection h with h; exact h.symm
  · split at h
    · cases h
    · split at h
      · cases h
      · split at h
        · cases h
        · injection h with h; exact h.symm

/-- `Identifier.from_id_hash` yields `result:<id_hash>` on success. -/
theorem from_id_hash_ok (id_hash : String) (rid : Identifier)
    (h : from_id_hash id_hash = Except.ok rid) : rid = "result:" ++ id_hash :=
  identifier_new_ok _ _ h

/-- Looking up a different id skips the newest asset. -/
theorem lookup_cons_ne {D J : Type} (b : Asset D J) (l : List (Asset D J))
    (x : Identifier) (hne : (b.id == x) = false) :
    AssetStore.lookup ⟨b :: l⟩ x = AssetStore.lookup ⟨l⟩ x := by
  unfold AssetStore.lookup
  rw [List.find?_cons_of_neg]
  simp [hne]

/-- Looking up the id of the newest asset finds it. -/
theorem lookup_cons_eq {D J : Type} (b : Asset D J) (l : List (Asset D J))
    (x : Identifier) (heq : (b.id == x) = true) :
    AssetStore.lookup ⟨b :: l⟩ x = some b := by
  unfold AssetStore.lookup
  rw [List.find?_cons_of_pos]
  simp [heq]

/-- A successful run of the output-persisting loop preserves every asset
already present in the store. -/
theorem store_outputs_preserves_lookup {D J : Type} (ih : String → Option String)
    (subjob : J) (step_name : String) (outs : List (String × D))
    (st st2 : AssetStore D J)
    (h : store_outputs ih subjob step_name outs st = (Except.ok (), st2))
    (x : Identifier) (a : Asset D J) (hx : st.lookup x = some a) :
    st2.lookup x = some a := by
  induction outs generalizing st with
  | nil =>
    unfold store_outputs at h
    rw [Prod.mk.injEq] at h
    obtain ⟨-, h2⟩ := h
    subst h2
    exact hx
  | cons ov rest ihp =>
    obtain ⟨oname, oval⟩ := ov
    simp only [store_outputs] at h
    split at h
    next => cases h
    next h1 hih =>
      split at h
      next => cases h
      next rid hf =>
        split at h
        next u st3 hstore =>
          unfold AssetStore.store at hstore
          split at hstore
          next hdup => simp at hstore
          next hdup =>
            rw [Prod.mk.injEq] at hstore
            obtain ⟨-, hst3⟩ := hstore
            subst hst3
            have hdup2 : st.lookup rid = none := by
              cases hlk : st.lookup rid with
              | none => rfl
              | some y =>
                exact absurd (by
                  show (st.lookup rid).isSome = true
                  rw [hlk]
                  rfl) hdup
            refine ihp _ h ?_
            have hne : (rid == x) = false := by
              cases hbeq : rid == x with
              | false => rfl
              | true =>
                exfalso
                have hrx : rid = x := beq_iff_eq.mp hbeq
                rw [hrx] at hdup2
                rw [hdup2] at hx
                cases hx
            rw [lookup_cons_ne _ _ _ hne]
            exact hx
        next e st3 hstore => simp at h

/-- C5: whenever the output-persisting loop of `JobRun.run` succeeds, every
output `(o, v)` produced by the compute asset for step `s` ends up in the
target store as a `DataAsset` whose identifier is
`result:<id_hash("<s>.<o>")>` and whose metadata is the sub-job of `s`
together with the item string `<s>.<o>`. -/
theorem store_outputs_stores_results {D J : Type} (ih : String → Option String)
    (subjob : J) (step_name : String) (outputs : List (String × D))
    (st st2 : AssetStore D J)
    (h : store_outputs ih subjob step_name outputs st = (Except.ok (), st2)) :
    ∀ ov ∈ outputs, ∃ hsh, ih (step_name ++ "." ++ ov.1) = some hsh ∧
      st2.lookup ("result:" ++ hsh) =
        some ⟨"result:" ++ hsh, ov.2, ⟨subjob, step_name ++ "." ++ ov.1⟩⟩ := by
  induction outputs generalizing st with
  | nil => intro ov hov; cases hov
  | cons ov0 rest ihp =>
    obtain ⟨oname, oval⟩ := ov0
    intro ov hov
    simp only [store_outputs] at h
    split at h
    next => cases h
    next h1 hih =>
      split at h
      next => cases h
      next rid hf =>
        have hrid : rid = "result:" ++ h1 := from_id_hash_ok h1 rid hf
        split at h
        next u st3 hstore =>
          unfold AssetStore.store at hstore
          split at hstore
          next hdup => simp at hstore
          next hdup =>
            rw [Prod.mk.injEq] at hstore
            obtain ⟨-, hst3⟩ := hstore
            subst hst3
            rcases List.mem_cons.mp hov with rfl | hov2
            · refine ⟨h1, hih, ?_⟩
              rw [← hrid]
              refine store_outputs_preserves_lookup ih subjob step_name rest _ st2 h
                _ _ ?_
              exact lookup_cons_eq _ _ _ (by
                show (rid == rid) = true
                exact beq_self_eq_true rid)
            · exact ihp _ h ov hov2
        next e st3 hstore => simp at h

/-- Witness for C5: a concrete successful run of the loop stores the result
asset under its `result:` identifier with the right metadata. -/
theorem store_outputs_stores_results_witness :
    store_outputs ihW () "A" [("y", (5 : Nat))] stEmpty =
      (Except.ok (), ⟨[⟨"result:h1000", 5, ⟨(), "A.y"⟩⟩]⟩) ∧
      ∀ ov ∈ [("y", (5 : Nat))], ∃ hsh, ihW ("A" ++ "." ++ ov.1) = some hsh ∧
        AssetStore.lookup
            (⟨[⟨"result:h1000", 5, ⟨(), "A.y"⟩⟩]⟩ : AssetStore Nat Unit)
            ("result:" ++ hsh) =
          some ⟨"result:" ++ hsh, ov.2, ⟨(), "A" ++ "." ++ ov.1⟩⟩ :=
  ⟨rfl,
   store_outputs_stores_results ihW () "A" [("y", (5 : Nat))] stEmpty
     ⟨[⟨"result:h1000", 5, ⟨(), "A.y"⟩⟩]⟩ rfl⟩

/-- A scan in which every remaining step has an input that is not yet
available (and whose compute asset retrieval does not raise) makes no
progress and does not crash. -/
theorem scan_all_notYet {D J : Type} (ctx : JobContext D J)
    (store : AssetStore D J) (todo : List WorkflowStep)
    (hinp : ∀ s ∈ todo, get_step_inputs ctx s = InputsResult.notYet)
    (hca : ∀ s ∈ todo, (ctx.retrieve_compute_asset s.compute_asset_id).isOk = true) :
    scan ctx store todo = ScanResult.noProgress := by
  induction todo with
  | nil => rfl
  | cons step rest ihp =>
    have h1 := hinp step (List.mem_cons_self step rest)
    have h2 := hca step (List.mem_cons_self step rest)
    unfold scan
    rw [h1]
    cases hc : ctx.retrieve_compute_asset step.compute_asset_id with
    | error e => rw [hc] at h2; cases h2
    | ok ca =>
      show scan ctx store rest = ScanResult.noProgress
      exact ihp (fun s hs => hinp s (List.mem_cons_of_mem step hs))
        (fun s hs => hca s (List.mem_cons_of_mem step hs))

/-- Unfolding equation of `run_loop` for positive fuel and a non-empty todo
set. -/
theorem run_loop_cons_succ {D J : Type} (ctx : JobContext D J) (fuel : Nat)
    (t : WorkflowStep) (ts : List WorkflowStep) (store : AssetStore D J)
    (sleeps : Nat) :
    run_loop ctx (fuel + 1) (t :: ts) store sleeps =
      match scan ctx store (t :: ts) with
      | ScanResult.crashed e st2 => RunResult.crashed e st2 sleeps
      | ScanResult.executed s st2 => run_loop ctx fuel ((t :: ts).erase s) st2 sleeps
      | ScanResult.noProgress => run_loop ctx fuel (t :: ts) store (sleeps + 1) := by
  rfl

/-- C8: when every step in the todo set has some input that is not yet
available at its source (a `KeyError` from the peer store) and compute-asset
retrieval raises nothing, one iteration of the run loop leaves the todo set
and the target store unchanged, takes one back-off sleep and rescans; the
job is not aborted. -/
theorem notyet_input_backs_off {D J : Type} (ctx : JobContext D J) (fuel : Nat)
    (step : WorkflowStep) (todo : List WorkflowStep) (store : AssetStore D J)
    (sleeps : Nat) (hmem : step ∈ todo)
    (hinp : ∀ s ∈ todo, get_step_inputs ctx s = InputsResult.notYet)
    (hca : ∀ s ∈ todo, (ctx.retrieve_compute_asset s.compute_asset_id).isOk = true) :
    run_loop ctx (fuel + 1) todo store sleeps =
      run_loop ctx fuel todo store (sleeps + 1) := by
  have hscan := scan_all_notYet ctx store todo hinp hca
  cases todo with
  | nil => cases hmem
  | cons t ts =>
    rw [run_loop_cons_succ, hscan]

/-- Witness for C8: step `B`, whose only input is not yet available at its
source site, stays in the todo set while the loop sleeps once. -/
theorem notyet_input_backs_off_witness :
    run_loop ctxW 1 [stepB] stEmpty 0 = run_loop ctxW 0 [stepB] stEmpty 1 :=
  notyet_input_backs_off ctxW 0 stepB [stepB] stEmpty 0
    (List.mem_singleton.mpr rfl)
    (by
      intro s hs
      rw [List.mem_singleton] at hs
      subst hs
      rfl)
    (by
      intro s hs
      rw [List.mem_singleton] at hs
      subst hs
      rfl)

end DDM
